import Mathlib

/-!
# Verification of the dstock-tools flow orchestrators

Shallow embedding of the flow-orchestration core of the repository:

* `pollGo` — the `pollUntil` loop of `src/flowHypeCoreToBsc.ts` (lines 62-81)
  and of the BSC→HyperCore flow script.  The loop reads a value, tests the
  predicate, and on failure compares elapsed time against the timeout before
  sleeping and repeating.  External nondeterminism (the values returned by
  the repeated reads, and the wall-clock elapsed time observed after each
  read) is supplied as a finite script of `(read result, elapsed ms)` pairs.
* `fetchHyperCoreSpotTotal` — the HyperCore balance observer (lines 90-101).
* `toAssetBridgeAddress` — `src/config/hypercore.ts`.
* `requireToken` / `TOKENS` — `src/config/tokens.ts`.
* `mainFlow1` / `mainFlow2` — the two three-hop flow orchestrators
  (`src/flowHypeCoreToBsc.ts` main, and the BSC→HyperCore flow main),
  embedded as deterministic functions of a `World` of external-collaborator
  outcomes, producing an event trace (network reads, step-executor
  invocations, poll invocations) together with an `Except` result.

JavaScript `number` values used as integer token amounts / indices are
embedded as `Nat`; bigint balances are embedded as `Nat` (they are
non-negative throughout the scripts).
-/

/-! ## The poller (`pollUntil`, flowHypeCoreToBsc.ts lines 62-81) -/

/-- Outcome of one run of the `pollUntil` loop.  `scriptEnd` is a modelling
artifact: the finite script of reads ran out before the loop decided
(the real loop would keep reading). -/
inductive PollOutcome (T : Type) where
  | satisfied (v : T)
  | timedOut (errMsg : String)
  | readError (errMsg : String)
  | scriptEnd
deriving Repr, DecidableEq

/-- The body of `pollUntil`: for each tick the script supplies the result of
`await read()` (`Except.error` when the read promise rejects) together with
`Date.now() - started` as observed at the timeout check after that read.
Mirrors the source: read; if `ok` return the value; if elapsed time exceeds
`timeoutMs` throw `Timeout waiting for: <label>`; otherwise sleep `intervalMs`
and repeat.  The sleep has no observable effect beyond advancing the clock,
which the script already records. -/
def pollGo {T : Type} (label : String) (ok : T → Bool) (timeoutMs : Nat) :
    List (Except String T × Nat) → PollOutcome T
  | [] => .scriptEnd
  | (r, elapsed) :: rest =>
    match r with
    | .error e => .readError e
    | .ok v =>
      if ok v then .satisfied v
      else if elapsed > timeoutMs then
        .timedOut ("Timeout waiting for: " ++ label)
      else pollGo label ok timeoutMs rest

/-! ## Hop confirmation strategies -/

/-- At-least (credit-only) confirmation: `(bal) => bal >= expectedAtLeast`,
with `expectedAtLeast = balBefore + amountWei` at the call sites. -/
def atLeastOk (expectedAtLeast : Nat) (bal : Nat) : Bool :=
  decide (bal ≥ expectedAtLeast)

/-- Any-increase confirmation used for the first hop of the BSC→HyperCore
flow: `(bal) => bal > wrapperBalBefore`. -/
def anyIncreaseOk (before : Nat) (bal : Nat) : Bool :=
  decide (bal > before)

/-- `const minExpected = (coreAmountWei * 999n) / 1000n` (bigint floor
division) from the BSC→HyperCore flow. -/
def coreMinExpected (coreAmountWei : Nat) : Nat :=
  coreAmountWei * 999 / 1000

/-- Tolerance-banded confirmation for the hop into HyperCore:
`(bal) => bal >= coreBalBefore + minExpected`. -/
def hypeCoreCreditOk (coreBalBefore coreAmountWei bal : Nat) : Bool :=
  decide (bal ≥ coreBalBefore + coreMinExpected coreAmountWei)

/-! ## HyperCore balance observer (`fetchHyperCoreSpotTotal`) -/

/-- One entry of the `balances` list returned by the HyperCore info endpoint.
`token` is `none` when the entry has no `token` field (then
`Number(b?.token)` is `NaN` and never matches); `total` is `none` when
`b.total` is null/absent. -/
structure SpotBalance where
  token : Option Nat
  total : Option String
deriving Repr, DecidableEq

/-- The HTTP response consumed by `fetchHyperCoreSpotTotal`: `ok`/`status`/
`statusText` of the fetch, and `data?.balances ?? []` of the parsed body. -/
structure ApiResp where
  ok : Bool
  status : Nat
  statusText : String
  balances : List SpotBalance
deriving Repr, DecidableEq

/-- `(b) => Number(b?.token) === Number(tokenIndex)`. -/
def spotEntryMatches (tokenIndex : Nat) (b : SpotBalance) : Bool :=
  match b.token with
  | some t => t == tokenIndex
  | none => false

/-- `fetchHyperCoreSpotTotal` (flowHypeCoreToBsc.ts lines 90-101): a non-OK
HTTP status throws `HyperCore API error: <status> <statusText>`; otherwise
the entry for `tokenIndex` is selected from the balances list and its
`total` returned, `none` when the account has no entry for that token (or
the entry has no total). -/
def fetchHyperCoreSpotTotal (resp : ApiResp) (tokenIndex : Nat) :
    Except String (Option String) :=
  if !resp.ok then
    .error ("HyperCore API error: " ++ toString resp.status ++ " " ++ resp.statusText)
  else
    .ok ((resp.balances.find? (spotEntryMatches tokenIndex)).bind (fun b => b.total))

/-- The caller-side mapping `s ? parseUnits(s, decimals) : 0n` (and
`s ? parseFloat(s) : 0`): a `null` observer result — and, by JavaScript
string truthiness, an empty string — is treated as balance zero, not as a
failure.  The numeric parse itself is an external collaborator, passed in. -/
def coreBalOrZero (parse : String → Nat) (s? : Option String) : Nat :=
  match s? with
  | some s => if s = "" then 0 else parse s
  | none => 0

/-! ## HyperCore asset-bridge address (`src/config/hypercore.ts`) -/

/-- One hex digit, lowercase, as produced by JavaScript `toString(16)`. -/
def hexVal (c : Char) : Nat :=
  if c.toNat ≥ 97 then c.toNat - 87 else c.toNat - 48

/-- The big-endian lowercase hex digit characters of `n`
(empty for `n = 0`). -/
def hexCharsOf (n : Nat) : List Char :=
  ((Nat.digits 16 n).map Nat.digitChar).reverse

/-- JavaScript `Number(n).toString(16)` for a non-negative integer `n`. -/
def jsHexString (n : Nat) : String :=
  if n = 0 then "0" else String.mk (hexCharsOf n)

/-- JavaScript `String.prototype.padStart` with a single-character pad:
returns the string unchanged when it is already at least `targetLen` long. -/
def padStartChars (cs : List Char) (targetLen : Nat) (pad : Char) : List Char :=
  List.replicate (targetLen - cs.length) pad ++ cs

/-- `toAssetBridgeAddress` (src/config/hypercore.ts lines 11-17):
`"0x2" + tokenIndex.toString(16).padStart(42 - 3, "0")`. -/
def toAssetBridgeAddress (tokenIndex : Nat) : String :=
  let addressLength := 42
  let addrHead := "0x2"
  let indexAsHex := jsHexString tokenIndex
  String.mk (addrHead.data ++ padStartChars indexAsHex.data (addressLength - addrHead.length) '0')

/-- Interpret a list of hex digit characters (big-endian) as a number. -/
def fromHexChars (cs : List Char) : Nat :=
  cs.foldl (fun a c => a * 16 + hexVal c) 0

/-- Recover the token index from an asset-bridge address: drop the three
leading characters and read the remaining hex digits. -/
def addrDecode (s : String) : Nat :=
  fromHexChars (s.data.drop 3)

theorem hexVal_digitChar {d : Nat} (hd : d < 16) :
    hexVal (Nat.digitChar d) = d := by
  interval_cases d <;> decide

theorem foldl_hex_generic (l : List Nat) (hl : ∀ d ∈ l, d < 16) (a : Nat) :
    List.foldl (fun acc c => acc * 16 + hexVal c) a ((l.map Nat.digitChar).reverse)
      = a * 16 ^ l.length + Nat.ofDigits 16 l := by
  induction l generalizing a with
  | nil => simp
  | cons d l ih =>
    have hd : d < 16 := hl d (List.mem_cons_self d l)
    have hl2 : ∀ x ∈ l, x < 16 := fun x hx => hl x (List.mem_cons_of_mem d hx)
    simp only [List.map_cons, List.reverse_cons, List.foldl_append, List.foldl_cons,
      List.foldl_nil, ih hl2 a, hexVal_digitChar hd, List.length_cons, Nat.ofDigits_cons]
    ring

theorem fromHexChars_hexCharsOf (n : Nat) :
    fromHexChars (hexCharsOf n) = n := by
  have h := foldl_hex_generic (Nat.digits 16 n)
    (fun d hd => Nat.digits_lt_base (by norm_num) hd) 0
  simpa [fromHexChars, hexCharsOf, Nat.ofDigits_digits] using h

theorem fromHexChars_replicate_zero (k : Nat) (cs : List Char) :
    fromHexChars (List.replicate k '0' ++ cs) = fromHexChars cs := by
  have hz : ∀ j, List.foldl (fun a c => a * 16 + hexVal c) 0 (List.replicate j '0') = 0 := by
    intro j
    induction j with
    | zero => rfl
    | succ j ih => simpa [List.replicate_succ, hexVal] using ih
  simp [fromHexChars, List.foldl_append, hz]

theorem addrDecode_toAssetBridgeAddress (n : Nat) :
    addrDecode (toAssetBridgeAddress n) = n := by
  by_cases h0 : n = 0
  · subst h0; decide
  · have : (jsHexString n).data = hexCharsOf n := by
      simp [jsHexString, h0]
    simp [addrDecode, toAssetBridgeAddress, this, padStartChars,
      fromHexChars_replicate_zero, fromHexChars_hexCharsOf]

theorem hexLen_le_of_lt_pow {n : Nat} (hn : n < 16 ^ 39) :
    (jsHexString n).data.length ≤ 39 := by
  by_cases h0 : n = 0
  · subst h0; decide
  · have hlog : Nat.log 16 n < 39 :=
      (Nat.lt_pow_iff_log_lt (by norm_num) h0).mp hn
    have hlen : (Nat.digits 16 n).length = Nat.log 16 n + 1 :=
      Nat.digits_len 16 n (by norm_num) h0
    have : (jsHexString n).data.length = (Nat.digits 16 n).length := by
      simp [jsHexString, h0, hexCharsOf]
    omega

theorem toAssetBridgeAddress_length {n : Nat} (hn : n < 16 ^ 39) :
    (toAssetBridgeAddress n).length = 42 := by
  have h := hexLen_le_of_lt_pow hn
  simp only [toAssetBridgeAddress, padStartChars, String.length]
  simp only [List.length_append, List.length_replicate, List.length_cons, List.length_nil]
  omega

/-! ## Token registry (`src/config/tokens.ts`) -/

/-- JavaScript case conversion / trimming, at the character-list level. -/
def jsToLower (s : String) : String := String.mk (s.data.map Char.toLower)

def jsTrim (s : String) : String :=
  String.mk (((s.data.dropWhile Char.isWhitespace).reverse.dropWhile Char.isWhitespace).reverse)

structure BscConfig where
  wrapper : String
  adapter : String
  underlying : Option String
deriving Repr, DecidableEq

structure HyperEvmConfig where
  oft : String
deriving Repr, DecidableEq

structure HyperCoreConfig where
  tokenIndex : Nat
deriving Repr, DecidableEq

structure TokenConfig where
  name : String
  bsc : BscConfig
  hyperEvm : HyperEvmConfig
  hyperCore : HyperCoreConfig
deriving Repr, DecidableEq

/-- The `crcld` entry of `TOKENS` in src/config/tokens.ts. -/
def crcldConfig : TokenConfig :=
  { name := "CRCLd"
    bsc :=
      { wrapper := "0x8edE6AffCBe962e642f83d84b8Af66313A700dDf"
        adapter := "0xF351FA44A73E6D1E9c4C2927A8D2b8c69a8B8897"
        underlying := some "0x992879cd8ce0c312d98648875b5a8d6d042cbf34" }
    hyperEvm := { oft := "0xe74aA6C4050A15790525eB11cc4562c664dC67C9" }
    hyperCore := { tokenIndex := 409 } }

/-- `TOKENS` as an association list. -/
def TOKENS : List (String × TokenConfig) := [("crcld", crcldConfig)]

/-- `normalizeTokenName(s) = s.trim().toLowerCase()`. -/
def normalizeTokenName (s : String) : String := jsToLower (jsTrim s)

/-- `requireToken` (src/config/tokens.ts lines 49-58): missing/empty input or
an unknown key throws; otherwise the registry entry is returned. -/
def requireToken (input : Option String) : Except String TokenConfig :=
  match input with
  | none => .error "Missing token name (e.g. CRCLd)."
  | some s =>
    if s = "" then .error "Missing token name (e.g. CRCLd)."
    else
      match TOKENS.find? (fun p => p.1 == normalizeTokenName s) with
      | some p => .ok p.2
      | none => .error ("Unknown token: " ++ s ++ ". Known tokens: crcld")

/-! ## Step executors (`runStep`, flowHypeCoreToBsc.ts lines 35-56) -/

/-- Terminal outcome of a spawned step-executor subprocess: a spawn error,
termination by signal, or exit with a code. -/
inductive StepOutcome where
  | spawnError (msg : String)
  | signaled (sig : String)
  | exited (code : Int)
deriving Repr, DecidableEq

/-- `runStep`'s promise: reject on spawn error; reject when killed by a
signal; resolve on exit code 0; reject with
`<stepName> failed with exit code <code>` otherwise. -/
def runStepResult (stepName : String) (o : StepOutcome) : Except String Unit :=
  match o with
  | .spawnError msg => .error msg
  | .signaled sig => .error (stepName ++ " terminated by signal: " ++ sig)
  | .exited code =>
    if code = 0 then .ok ()
    else .error (stepName ++ " failed with exit code " ++ toString code)

/-! ## Orchestrator runs as event traces -/

/-- Observable actions of a flow orchestrator run: a network read (RPC
`readContract` / HyperCore info fetch), a step-executor invocation with its
argument list, and a `pollUntil` invocation. -/
inductive Ev where
  | network (label : String)
  | step (stepName : String) (args : List String)
  | poll (label : String)
deriving Repr, DecidableEq

/-- Errors of a run: a thrown JavaScript `Error` (identified by its message),
or the modelling artifact of a poll whose finite read script ran out. -/
inductive Err where
  | thrown (msg : String)
  | pollScriptEnd (label : String)
deriving Repr, DecidableEq

/-- A finished (or aborted) run: the events performed, in order, and the
promise outcome of `main`. -/
structure RunResult (α : Type) where
  trace : List Ev
  result : Except Err α
deriving Repr

/-- Sequencing of an awaited network read: the read is attempted (so the
event is recorded), a rejected promise aborts the run, a resolved one feeds
the continuation. -/
def readK {α β : Type} (label : String) (r : Except String α)
    (k : α → List Ev → RunResult β) : List Ev → RunResult β :=
  fun t =>
    match r with
    | .error e => ⟨t ++ [.network label], .error (.thrown e)⟩
    | .ok a => k a (t ++ [.network label])

/-- Sequencing of an awaited `runStep`: the subprocess is spawned (event
recorded), a rejection aborts the run. -/
def stepK {β : Type} (stepName : String) (args : List String) (o : StepOutcome)
    (k : Unit → List Ev → RunResult β) : List Ev → RunResult β :=
  fun t =>
    match runStepResult stepName o with
    | .error e => ⟨t ++ [.step stepName args], .error (.thrown e)⟩
    | .ok _ => k () (t ++ [.step stepName args])

/-- Sequencing of an awaited `pollUntil` call. -/
def pollK {T β : Type} (label : String) (script : List (Except String T × Nat))
    (ok : T → Bool) (timeoutMs : Nat)
    (k : T → List Ev → RunResult β) : List Ev → RunResult β :=
  fun t =>
    match pollGo label ok timeoutMs script with
    | .satisfied v => k v (t ++ [.poll label])
    | .timedOut m => ⟨t ++ [.poll label], .error (.thrown m)⟩
    | .readError e => ⟨t ++ [.poll label], .error (.thrown e)⟩
    | .scriptEnd => ⟨t ++ [.poll label], .error (.pollScriptEnd label)⟩

/-- `if (!isDryRun) { ... await pollUntil(...) ... }`: in dry-run mode the
confirmation block is skipped entirely. -/
def condPoll {T β : Type} (isDryRun : Bool) (label : String)
    (script : List (Except String T × Nat)) (ok : T → Bool) (timeoutMs : Nat)
    (k : Unit → List Ev → RunResult β) : List Ev → RunResult β :=
  if isDryRun then k () else pollK label script ok timeoutMs (fun _ => k ())

def doneK : List Ev → RunResult Unit := fun t => ⟨t, .ok ()⟩

def failK {α : Type} (msg : String) : List Ev → RunResult α :=
  fun t => ⟨t, .error (.thrown msg)⟩

/-- `["--dry-run"]` when the flag is set, `[]` otherwise. -/
def dryArgs (b : Bool) : List String := if b then ["--dry-run"] else []

/-! ## Flow 1: HyperCore → HyperEVM → BSC (`src/flowHypeCoreToBsc.ts` main) -/

/-- The parsed CLI/environment boundary of the HyperCore→BSC flow
(spec §9: ambient `process.argv` / `process.env` reads abstracted into one
input value).  A `some ""` field is a present-but-empty value, which
JavaScript truthiness checks treat like an absent one. -/
structure Input1 where
  token : Option String
  toArg : Option String
  amount : Option String
  spotSendAmountArg : Option String
  bridgeAmountArg : Option String
  unwrapAmountArg : Option String
  dryRun : Bool
  srcRpcUrl : Option String
  privateKey : Option String

/-- External collaborators of one HyperCore→BSC flow run: address validity
and key-derivation (viem), decimal parsing, and the outcome of every
network read, subprocess and poll tick, in program order. -/
structure World1 where
  isAddress : String → Bool
  signerAddress : String
  parseUnits : String → Nat → Nat
  parseFloatNat : String → Nat
  decimalsRes : Except String Nat
  coreResp : ApiResp
  hyperEvmBalBefore : Except String Nat
  step1 : StepOutcome
  poll1Script : List (Except String Nat × Nat)
  bscWrapperBalBefore : Except String Nat
  step2 : StepOutcome
  poll2Script : List (Except String Nat × Nat)
  underlyingBalBefore : Except String Nat
  step3 : StepOutcome
  underlyingBalAfter : Except String Nat

/-- Values established by flow 1's validation phase. -/
structure Ctx1 where
  tokenArg : String
  toAddr : String
  spotSendAmount : String
  bridgeAmount : String
  unwrapAmount : String
  tokenMeta : TokenConfig
deriving Repr, DecidableEq

def msgMissingToken1 : String :=
  "Missing token. Usage: npm run flowHypeCoreToBsc -- <TOKEN> --to <ADDR> --amount <AMOUNT>"

def msgBadTo1 : String :=
  "Missing/invalid --to (recipient on BSC for final unwrapped tokens)"

/-- The `--to must equal the EVM address of PRIVATE_KEY` error of flow 1. -/
def mismatchMsg1 (dest signer : String) : String :=
  "--to must equal the EVM address of PRIVATE_KEY for this flow.\nto=" ++ dest ++
    "\nsigner=" ++ signer ++
    "\nOtherwise step 3 (unwrap) cannot operate on the received tokens."

/-- The `Validating` phase of flow 1 (flowHypeCoreToBsc.ts lines 118-154),
in source order: token present, `--to` present and a valid address, the
three per-hop amounts resolvable (`override ?? amount`), RPC url and
private key present, the token known to the registry, and `--to` equal
(case-insensitively) to the signing key's address.  Purely local: no
network call is made here. -/
def validate1 (inp : Input1) (w : World1) : Except String Ctx1 :=
  match inp.token with
  | none => .error msgMissingToken1
  | some token =>
    if token = "" then .error msgMissingToken1
    else match inp.toArg with
    | none => .error msgBadTo1
    | some dest =>
      if dest = "" ∨ w.isAddress dest = false then .error msgBadTo1
      else match inp.spotSendAmountArg <|> inp.amount with
      | none => .error "Missing --amount (or --spot-send-amount)"
      | some spotSendAmount =>
        if spotSendAmount = "" then .error "Missing --amount (or --spot-send-amount)"
        else match inp.bridgeAmountArg <|> inp.amount with
        | none => .error "Missing --amount (or --bridge-amount)"
        | some bridgeAmount =>
          if bridgeAmount = "" then .error "Missing --amount (or --bridge-amount)"
          else match inp.unwrapAmountArg <|> inp.amount with
          | none => .error "Missing --amount (or --unwrap-amount)"
          | some unwrapAmount =>
            if unwrapAmount = "" then .error "Missing --amount (or --unwrap-amount)"
            else match inp.srcRpcUrl with
            | none => .error "Missing SRC_RPC_URL"
            | some srcRpcUrl =>
              if srcRpcUrl = "" then .error "Missing SRC_RPC_URL"
              else match inp.privateKey with
              | none => .error "Missing PRIVATE_KEY"
              | some privateKey =>
                if privateKey = "" then .error "Missing PRIVATE_KEY"
                else match requireToken (some token) with
                | .error e => .error e
                | .ok tokenMeta =>
                  if jsToLower dest ≠ jsToLower w.signerAddress then
                    .error (mismatchMsg1 dest w.signerAddress)
                  else
                    .ok ⟨token, dest, spotSendAmount, bridgeAmount, unwrapAmount, tokenMeta⟩

def label1a : String := "HyperEVM token balance credited from HyperCore"
def label1b : String := "BSC wrapper balance credited from HyperEVM"

/-- `main` of src/flowHypeCoreToBsc.ts (lines 117-314) as a deterministic
function of the input and the external world.  After validation: read
token decimals, the HyperCore spot balance and the HyperEVM balance; run
step 1 (`hypeCoreToHypeEvm`) and, unless dry-run, poll the HyperEVM
balance up to `before + amountWei` (at-least strategy, timeout 5 min);
read the BSC wrapper balance; run step 2 (`hypeEvmToBsc`) and, unless
dry-run, poll the wrapper balance (at-least, timeout 30 min); require the
underlying address, read the underlying balance; run step 3 (`bscUnwrap`)
and, unless dry-run, read the final balance. -/
def mainFlow1 (inp : Input1) (w : World1) : RunResult Unit :=
  match validate1 inp w with
  | .error e => ⟨[], .error (.thrown e)⟩
  | .ok ctx =>
    (readK "hyperEvm.oft.decimals" w.decimalsRes fun tokenDecimals =>
     readK "hyperCore.info.spotClearinghouseState"
         (fetchHyperCoreSpotTotal w.coreResp ctx.tokenMeta.hyperCore.tokenIndex)
         fun coreBalBeforeStr =>
     let _coreBalBefore := coreBalOrZero w.parseFloatNat coreBalBeforeStr
     readK "hyperEvm.oft.balanceOf" w.hyperEvmBalBefore fun hyperEvmBalBefore =>
     stepK "hypeCoreToHypeEvm"
         ([ctx.tokenArg, "--amount", ctx.spotSendAmount] ++ dryArgs inp.dryRun)
         w.step1 fun _ =>
     condPoll inp.dryRun label1a w.poll1Script
         (atLeastOk (hyperEvmBalBefore + w.parseUnits ctx.spotSendAmount tokenDecimals))
         300000 fun _ =>
     readK "bsc.wrapper.balanceOf" w.bscWrapperBalBefore fun bscWrapperBalBefore =>
     stepK "hypeEvmToBsc"
         ([ctx.tokenArg, "--to", ctx.toAddr, "--amount", ctx.bridgeAmount] ++ dryArgs inp.dryRun)
         w.step2 fun _ =>
     condPoll inp.dryRun label1b w.poll2Script
         (atLeastOk (bscWrapperBalBefore + w.parseUnits ctx.bridgeAmount tokenDecimals))
         1800000 fun _ =>
     (match ctx.tokenMeta.bsc.underlying with
      | none =>
        failK ("Missing underlying address for " ++ ctx.tokenMeta.name ++
          ". Cannot proceed with unwrap.")
      | some _underlying =>
        readK "bsc.underlying.balanceOf" w.underlyingBalBefore fun _underlyingBalBefore =>
        stepK "bscUnwrap"
            ([ctx.tokenArg, "--to", ctx.toAddr, "--amount", ctx.unwrapAmount] ++ dryArgs inp.dryRun)
            w.step3 fun _ =>
        (if inp.dryRun then doneK
         else readK "bsc.underlying.balanceOf.final" w.underlyingBalAfter fun _after => doneK)))
      []

/-! ## Flow 2: BSC → HyperEVM → HyperCore (the BSC→HyperCore flow script) -/

/-- The parsed CLI/environment boundary of the BSC→HyperCore flow. -/
structure Input2 where
  token : Option String
  toArg : Option String
  amount : Option String
  wrapAmountArg : Option String
  sendAmountArg : Option String
  coreAmountArg : Option String
  dryRun : Bool
  srcRpcUrl : Option String
  privateKey : Option String

/-- External collaborators of one BSC→HyperCore flow run, in program order.
The third poll reads the HyperCore info endpoint on every tick, so its
script supplies one HTTP response per tick. -/
structure World2 where
  isAddress : String → Bool
  signerAddress : String
  parseUnits : String → Nat → Nat
  wrapperBalBefore : Except String Nat
  step1 : StepOutcome
  poll1Script : List (Except String Nat × Nat)
  decimalsRes : Except String Nat
  hyperBalBefore : Except String Nat
  step2 : StepOutcome
  poll2Script : List (Except String Nat × Nat)
  coreResp : ApiResp
  step3 : StepOutcome
  poll3Script : List (ApiResp × Nat)

/-- Values established by flow 2's validation phase. -/
structure Ctx2 where
  tokenArg : String
  toAddr : String
  wrapAmount : String
  sendAmount : String
  coreAmount : String
  tokenMeta : TokenConfig
deriving Repr, DecidableEq

def msgMissingToken2 : String :=
  "Missing token. Usage: npm run flow -- <TOKEN> --to <ADDR> --amount <AMOUNT>"

def msgBadTo2 : String :=
  "Missing/invalid --to (recipient on destination chain for sendToHyperEvm)"

/-- The `--to must equal the EVM address of PRIVATE_KEY` error of flow 2. -/
def mismatchMsg2 (dest signer : String) : String :=
  "--to must equal the EVM address of PRIVATE_KEY for this flow.\nto=" ++ dest ++
    "\nsigner=" ++ signer ++
    "\nOtherwise step 3 cannot transfer the token to HyperCore."

/-- The `Validating` phase of flow 2, in source order; purely local. -/
def validate2 (inp : Input2) (w : World2) : Except String Ctx2 :=
  match inp.token with
  | none => .error msgMissingToken2
  | some token =>
    if token = "" then .error msgMissingToken2
    else match inp.toArg with
    | none => .error msgBadTo2
    | some dest =>
      if dest = "" ∨ w.isAddress dest = false then .error msgBadTo2
      else match inp.wrapAmountArg <|> inp.amount with
      | none => .error "Missing --amount (or --wrap-amount)"
      | some wrapAmount =>
        if wrapAmount = "" then .error "Missing --amount (or --wrap-amount)"
        else match inp.sendAmountArg <|> inp.amount with
        | none => .error "Missing --amount (or --send-amount)"
        | some sendAmount =>
          if sendAmount = "" then .error "Missing --amount (or --send-amount)"
          else match inp.coreAmountArg <|> inp.amount with
          | none => .error "Missing --amount (or --core-amount)"
          | some coreAmount =>
            if coreAmount = "" then .error "Missing --amount (or --core-amount)"
            else match inp.srcRpcUrl with
            | none => .error "Missing SRC_RPC_URL"
            | some srcRpcUrl =>
              if srcRpcUrl = "" then .error "Missing SRC_RPC_URL"
              else match inp.privateKey with
              | none => .error "Missing PRIVATE_KEY"
              | some privateKey =>
                if privateKey = "" then .error "Missing PRIVATE_KEY"
                else match requireToken (some token) with
                | .error e => .error e
                | .ok tokenMeta =>
                  if jsToLower dest ≠ jsToLower w.signerAddress then
                    .error (mismatchMsg2 dest w.signerAddress)
                  else
                    .ok ⟨token, dest, wrapAmount, sendAmount, coreAmount, tokenMeta⟩

def label2a : String := "wrapper balance increase after wrap"
def label2b : String := "HyperEVM token balance credited"

/-- Label of flow 2's third poll: `HyperCore spot credit for tokenIndex=<i>`. -/
def label2c (tokenIndex : Nat) : String :=
  "HyperCore spot credit for tokenIndex=" ++ toString tokenIndex

/-- The reads of flow 2's third poll: each tick fetches the HyperCore spot
total and maps a missing entry to balance zero
(`s ? parseUnits(s, tokenDecimals) : 0n`). -/
def poll3Reads (w : World2) (tokenIndex tokenDecimals : Nat) :
    List (Except String Nat × Nat) :=
  w.poll3Script.map fun p =>
    ((fetchHyperCoreSpotTotal p.1 tokenIndex).map
      (coreBalOrZero (fun s => w.parseUnits s tokenDecimals)), p.2)

/-- `main` of the BSC→HyperCore flow script (lines 431-613 of the combined
source) as a deterministic function of input and world.  After validation:
read the BSC wrapper balance; run step 1 (`bscWrap`) and, unless dry-run,
poll for any increase of the wrapper balance (timeout 2 min); read token
decimals and the HyperEVM balance; run step 2 (`bscToHypeEvm`) and, unless
dry-run, poll the HyperEVM balance up to `before + amountWei` (at-least,
timeout 24 h); derive the asset-bridge address, read the HyperCore spot
balance (missing entry ↦ 0); run step 3 (`hypeEvmToHypeCore`) and, unless
dry-run, poll the HyperCore spot balance up to
`before + (amountWei * 999) / 1000` (tolerance-banded, timeout 10 min). -/
def mainFlow2 (inp : Input2) (w : World2) : RunResult Unit :=
  match validate2 inp w with
  | .error e => ⟨[], .error (.thrown e)⟩
  | .ok ctx =>
    (readK "bsc.wrapper.balanceOf" w.wrapperBalBefore fun wrapperBalBefore =>
     stepK "bscWrap"
         ([ctx.tokenArg, "--amount", ctx.wrapAmount] ++ dryArgs inp.dryRun)
         w.step1 fun _ =>
     condPoll inp.dryRun label2a w.poll1Script
         (anyIncreaseOk wrapperBalBefore) 120000 fun _ =>
     readK "hyperEvm.oft.decimals" w.decimalsRes fun tokenDecimals =>
     readK "hyperEvm.oft.balanceOf" w.hyperBalBefore fun hyperBalBefore =>
     stepK "bscToHypeEvm"
         ([ctx.tokenArg, "--to", ctx.toAddr, "--amount", ctx.sendAmount] ++ dryArgs inp.dryRun)
         w.step2 fun _ =>
     condPoll inp.dryRun label2b w.poll2Script
         (atLeastOk (hyperBalBefore + w.parseUnits ctx.sendAmount tokenDecimals))
         86400000 fun _ =>
     let tokenIndex := ctx.tokenMeta.hyperCore.tokenIndex
     let _coreBridge := toAssetBridgeAddress tokenIndex
     let coreAmountWei := w.parseUnits ctx.coreAmount tokenDecimals
     readK "hyperCore.info.spotClearinghouseState"
         (fetchHyperCoreSpotTotal w.coreResp tokenIndex) fun coreBalBeforeStr =>
     let coreBalBefore :=
       coreBalOrZero (fun s => w.parseUnits s tokenDecimals) coreBalBeforeStr
     stepK "hypeEvmToHypeCore"
         ([ctx.tokenArg, "--amount", ctx.coreAmount] ++ dryArgs inp.dryRun)
         w.step3 fun _ =>
     (if inp.dryRun then doneK
      else
        pollK (label2c tokenIndex) (poll3Reads w tokenIndex tokenDecimals)
          (hypeCoreCreditOk coreBalBefore coreAmountWei) 600000 fun _ => doneK))
      []

/-! ## Trace observations -/

def isPollEv : Ev → Bool
  | .poll _ => true
  | _ => false

/-- No `pollUntil` invocation occurs in the trace. -/
def noPollEvents (t : List Ev) : Bool := t.all fun e => !(isPollEv e)

/-- Some step executor named `stepName` was invoked in the trace. -/
def hasStep (stepName : String) (t : List Ev) : Bool :=
  t.any fun e =>
    match e with
    | .step n _ => n == stepName
    | _ => false

/-- Every step-executor invocation in the trace carries `--dry-run`. -/
def stepsAllDry (t : List Ev) : Bool :=
  t.all fun e =>
    match e with
    | .step _ args => args.contains "--dry-run"
    | _ => true

/-- The per-hop plan of a trace: each step executor's name and arguments
with the `--dry-run` flag removed (executor, token, destination, resolved
amount). -/
def stepPlans (t : List Ev) : List (String × List String) :=
  t.filterMap fun e =>
    match e with
    | .step n args => some (n, args.filter fun a => a != "--dry-run")
    | _ => none

/-! ## Concrete sample runs (used to witness the theorems below) -/

def sampleInput1 : Input1 :=
  { token := some "crcld", toArg := some "0xAB", amount := some "1"
    spotSendAmountArg := none, bridgeAmountArg := none, unwrapAmountArg := none
    dryRun := false, srcRpcUrl := some "http://rpc", privateKey := some "0xkey" }

def sampleWorld1 : World1 :=
  { isAddress := fun _ => true
    signerAddress := "0xAB"
    parseUnits := fun _ _ => 1000
    parseFloatNat := fun _ => 0
    decimalsRes := .ok 6
    coreResp := ⟨true, 200, "OK", []⟩
    hyperEvmBalBefore := .ok 0
    step1 := .exited 0
    poll1Script := [(.ok 1000, 2000)]
    bscWrapperBalBefore := .ok 0
    step2 := .exited 0
    poll2Script := [(.ok 1000, 5000)]
    underlyingBalBefore := .ok 0
    step3 := .exited 0
    underlyingBalAfter := .ok 1000 }

def sampleInput2 : Input2 :=
  { token := some "crcld", toArg := some "0xAB", amount := some "1"
    wrapAmountArg := none, sendAmountArg := none, coreAmountArg := none
    dryRun := false, srcRpcUrl := some "http://rpc", privateKey := some "0xkey" }

def sampleWorld2 : World2 :=
  { isAddress := fun _ => true
    signerAddress := "0xAB"
    parseUnits := fun _ _ => 1000
    wrapperBalBefore := .ok 0
    step1 := .exited 0
    poll1Script := [(.ok 5, 2000)]
    decimalsRes := .ok 6
    hyperBalBefore := .ok 0
    step2 := .exited 0
    poll2Script := [(.ok 1000, 5000)]
    coreResp := ⟨true, 200, "OK", []⟩
    step3 := .exited 0
    poll3Script := [(⟨true, 200, "OK", [⟨some 409, some "999"⟩]⟩, 5000)] }

-- Decidable equality for `Except` results, used to evaluate concrete runs.
deriving instance DecidableEq for Except

/-! ## Claim theorems -/

/-- C10: for every non-negative integer tokenIndex whose hexadecimal
representation has at most 39 digits (tokenIndex < 16^39),
`toAssetBridgeAddress` returns a 42-character string starting with `0x2`
whose remaining 39 characters are the zero-padded lowercase hex digits of
the index (witnessed by the decode round-trip), and the function is
injective on that domain. -/
theorem C10_assetBridgeAddress_shape_injective (m n : Nat)
    (hm : m < 16 ^ 39) (hn : n < 16 ^ 39) :
    (toAssetBridgeAddress n).length = 42 ∧
    (toAssetBridgeAddress n).data.take 3 = ['0', 'x', '2'] ∧
    addrDecode (toAssetBridgeAddress n) = n ∧
    (toAssetBridgeAddress m = toAssetBridgeAddress n → m = n) := by
  refine ⟨toAssetBridgeAddress_length hn, ?_, addrDecode_toAssetBridgeAddress n, ?_⟩
  · have hdata : "0x2".data = ['0', 'x', '2'] := rfl
    simp [toAssetBridgeAddress, hdata]
  · intro h
    have h1 := addrDecode_toAssetBridgeAddress m
    rw [h, addrDecode_toAssetBridgeAddress n] at h1
    exact h1.symm

/-- Witness for C10 at tokenIndex 409 (the CRCLd index) and 2. -/
theorem C10_witness :
    (2 : Nat) < 16 ^ 39 ∧ (409 : Nat) < 16 ^ 39 ∧
    (toAssetBridgeAddress 409).length = 42 ∧
    (toAssetBridgeAddress 409).data.take 3 = ['0', 'x', '2'] ∧
    addrDecode (toAssetBridgeAddress 409) = 409 ∧
    (toAssetBridgeAddress 2 = toAssetBridgeAddress 409 → 2 = 409) := by
  refine ⟨by norm_num, by norm_num, ?_⟩
  have h := C10_assetBridgeAddress_shape_injective 2 409 (by norm_num) (by norm_num)
  exact ⟨h.1, h.2.1, h.2.2.1, h.2.2.2⟩

/-- C4: the tolerance-banded confirmation of the hop into HyperCore accepts
a balance `b` iff `b ≥ before + expectedDelta * 999 / 1000` in exact
integer arithmetic (ε = 0.001 as the floor of 999/1000 of the delta); for
`before = 0`, `expectedDelta = 1000` a balance of 999 is accepted and 998
is not. -/
theorem C4_tolerance_banded_confirmation :
    (∀ before expectedDelta b : Nat,
      hypeCoreCreditOk before expectedDelta b = true ↔
        b ≥ before + expectedDelta * 999 / 1000) ∧
    hypeCoreCreditOk 0 1000 999 = true ∧
    hypeCoreCreditOk 0 1000 998 = false := by
  refine ⟨fun before expectedDelta b => ?_, by decide, by decide⟩
  simp [hypeCoreCreditOk, coreMinExpected]

/-- C5: the at-least confirmation with `before = 100`, `expectedDelta = 50`
accepts the sampled sequence `[100, 100, 130, 151]` exactly at the 4th
sample (running the poll loop on the first three samples alone decides
nothing), and a sequence that plateaus at `140` runs into the poll
timeout. -/
theorem C5_at_least_confirmation_sequence :
    pollGo label1a (atLeastOk (100 + 50)) 300000
        [(.ok 100, 2000), (.ok 100, 4000), (.ok 130, 6000), (.ok 151, 8000)] =
      .satisfied 151 ∧
    pollGo label1a (atLeastOk (100 + 50)) 300000
        [(.ok 100, 2000), (.ok 100, 4000), (.ok 130, 6000)] = .scriptEnd ∧
    pollGo label1a (atLeastOk (100 + 50)) 300000
        [(.ok 140, 2000), (.ok 140, 300001)] =
      .timedOut ("Timeout waiting for: " ++ label1a) := by
  refine ⟨by decide, by decide, by decide⟩

/-- C3 counterexample: two poll runs that time out with different last
values (5 vs 9) after different elapsed times (2000ms vs 3000ms) throw
literally identical errors, so the thrown timeout error carries the label
but cannot carry the elapsed time or the last value read, contrary to the
claim. -/
theorem C3_counterexample_error_payload :
    pollGo "X" (atLeastOk 150) 1000 [(.ok 5, 2000)] =
      .timedOut ("Timeout waiting for: X") ∧
    pollGo "X" (atLeastOk 150) 1000 [(.ok 7, 500), (.ok 9, 3000)] =
      .timedOut ("Timeout waiting for: X") := by
  refine ⟨by decide, by decide⟩

/-- C3 (amended): when the first read does not satisfy the predicate and
the elapsed time is within the timeout, `pollUntil` repeats on the
remaining reads; it fails with the error `Timeout waiting for: <label>` —
carrying the label but not the elapsed time or last value — once the
elapsed time exceeds the timeout; it never returns a non-satisfying
value. -/
theorem C3_pollUntil_timeout_behaviour {T : Type} (label : String)
    (ok : T → Bool) (timeoutMs : Nat) (script : List (Except String T × Nat)) :
    (∀ v, pollGo label ok timeoutMs script = .satisfied v → ok v = true) ∧
    (∀ m, pollGo label ok timeoutMs script = .timedOut m →
      m = "Timeout waiting for: " ++ label) ∧
    (∀ v elapsed rest, script = (Except.ok v, elapsed) :: rest →
      ok v = false → elapsed ≤ timeoutMs →
      pollGo label ok timeoutMs script = pollGo label ok timeoutMs rest) := by
  induction script with
  | nil =>
    refine ⟨?_, ?_, ?_⟩ <;> intro _ h <;> simp_all [pollGo]
  | cons p rest ih =>
    obtain ⟨r, elapsed⟩ := p
    refine ⟨?_, ?_, ?_⟩
    · intro v h
      cases r with
      | error e => simp [pollGo] at h
      | ok v0 =>
        by_cases hok : ok v0
        · simp [pollGo, hok] at h
          rw [← h]; exact hok
        · by_cases ht : elapsed > timeoutMs
          · simp [pollGo, hok, ht] at h
          · simp [pollGo, hok, ht] at h
            exact ih.1 v h
    · intro m h
      cases r with
      | error e => simp [pollGo] at h
      | ok v0 =>
        by_cases hok : ok v0
        · simp [pollGo, hok] at h
        · by_cases ht : elapsed > timeoutMs
          · simp [pollGo, hok, ht] at h
            exact h.symm
          · simp [pollGo, hok, ht] at h
            exact ih.2.1 m h
    · intro v el rest0 heq hok hle
      obtain ⟨h1, h2, h3⟩ : r = Except.ok v ∧ elapsed = el ∧ rest = rest0 := by
        injection heq with ha hb
        injection ha with ha1 ha2
        exact ⟨ha1, ha2, hb⟩
      subst h1; subst h2; subst h3
      simp [pollGo, hok, Nat.not_lt.mpr hle]

/-- Witness for C3's amended theorem: the first-conjunct implication at a
concrete satisfied run. -/
theorem C3_witness : atLeastOk 10 12 = true :=
  (C3_pollUntil_timeout_behaviour "L" (atLeastOk 10) 100
    [(.ok 12, 50)]).1 12 (by decide)

/-- C7: when the info endpoint responds OK but the account has no entry for
the target asset index, the balance observer returns `none` rather than an
error (an OK response never raises), the caller-side mapping turns that
`none` into balance zero, and only a non-OK HTTP status raises the
`HyperCore API error` failure. -/
theorem C7_missing_entry_is_zero_not_error :
    (∀ resp idx, resp.ok = true →
      (∀ b ∈ resp.balances, spotEntryMatches idx b = false) →
      fetchHyperCoreSpotTotal resp idx = .ok none) ∧
    (∀ parse, coreBalOrZero parse none = 0) ∧
    (∀ resp idx, resp.ok = true → ∃ v, fetchHyperCoreSpotTotal resp idx = .ok v) ∧
    (∀ status statusText balances idx,
      fetchHyperCoreSpotTotal ⟨false, status, statusText, balances⟩ idx =
        .error ("HyperCore API error: " ++ toString status ++ " " ++ statusText)) := by
  refine ⟨?_, fun parse => rfl, ?_, ?_⟩
  · intro resp idx hok hnone
    have hfind : resp.balances.find? (spotEntryMatches idx) = none := by
      rw [List.find?_eq_none]
      intro b hb
      simp [hnone b hb]
    simp [fetchHyperCoreSpotTotal, hok, hfind]
  · intro resp idx hok
    exact ⟨(resp.balances.find? (spotEntryMatches idx)).bind (fun b => b.total),
      by simp [fetchHyperCoreSpotTotal, hok]⟩
  · intro status statusText balances idx
    simp [fetchHyperCoreSpotTotal]

/-- Witness for C7: an OK response whose only entry is for a different
token index yields `none`, which the caller maps to zero. -/
theorem C7_witness :
    fetchHyperCoreSpotTotal ⟨true, 200, "OK", [⟨some 7, some "5"⟩]⟩ 409 = .ok none ∧
    coreBalOrZero (fun _ => 77) none = 0 :=
  ⟨(C7_missing_entry_is_zero_not_error).1 ⟨true, 200, "OK", [⟨some 7, some "5"⟩]⟩ 409
      rfl (by decide),
   (C7_missing_entry_is_zero_not_error).2.1 (fun _ => 77)⟩

/-- C8: `pollUntil` checks its first read immediately: if the predicate
holds on the first scripted value the poll returns it at once, whatever
the clock says and whatever later reads would return; instantiated on the
any-increase strategy of flow 2's first hop with `before = 0`, any first
read `> 0` confirms on the first poll. -/
theorem C8_first_read_immediate :
    (∀ {T : Type} (label : String) (ok : T → Bool) (timeoutMs : Nat) (v : T)
        (elapsed : Nat) (rest : List (Except String T × Nat)),
      ok v = true →
      pollGo label ok timeoutMs ((Except.ok v, elapsed) :: rest) = .satisfied v) ∧
    (∀ (b elapsed : Nat) (rest : List (Except String Nat × Nat)),
      0 < b →
      pollGo label2a (anyIncreaseOk 0) 120000 ((Except.ok b, elapsed) :: rest) =
        .satisfied b) := by
  constructor
  · intro T label ok timeoutMs v elapsed rest hok
    simp [pollGo, hok]
  · intro b elapsed rest hb
    simp [pollGo, anyIncreaseOk, hb]

/-- Witness for C8: a first read of 5 against `before = 0`, taken after the
timeout would already have expired, still confirms immediately. -/
theorem C8_witness :
    pollGo label2a (anyIncreaseOk 0) 120000
        ((Except.ok 5, 999999999) :: [(Except.error "never-read", 0)]) =
      .satisfied 5 :=
  (C8_first_read_immediate).2 5 999999999 [(Except.error "never-read", 0)] (by decide)

/-- C9 (implicit): a read that throws makes `pollUntil` reject immediately
with that error — independently of the remaining script and of the clock,
so the failure is not retried, not treated as "not yet satisfied" and not
charged against the timeout budget; at the orchestrator level the poll
call then aborts the run with that error (the continuation never runs);
a non-OK info-endpoint status is such a throwing read. -/
theorem C9_poll_read_error_aborts :
    (∀ {T : Type} (label : String) (ok : T → Bool) (timeoutMs : Nat)
        (e : String) (elapsed : Nat) (rest : List (Except String T × Nat)),
      pollGo label ok timeoutMs ((Except.error e, elapsed) :: rest) = .readError e) ∧
    (∀ {T β : Type} (label : String) (script : List (Except String T × Nat))
        (ok : T → Bool) (timeoutMs : Nat) (k : T → List Ev → RunResult β)
        (t : List Ev) (e : String),
      pollGo label ok timeoutMs script = .readError e →
      pollK label script ok timeoutMs k t =
        ⟨t ++ [.poll label], .error (.thrown e)⟩) ∧
    (∀ status statusText balances idx,
      (fetchHyperCoreSpotTotal ⟨false, status, statusText, balances⟩ idx).isOk
        = false) := by
  refine ⟨?_, ?_, ?_⟩
  · intro T label ok timeoutMs e elapsed rest
    simp [pollGo]
  · intro T β label script ok timeoutMs k t e h
    simp [pollK, h]
  · intro status statusText balances idx
    simp [fetchHyperCoreSpotTotal, Except.isOk, Except.toBool]

/-- Witness for C9: a concrete poll whose second tick's read rejects. -/
theorem C9_witness :
    pollK "L" [(Except.ok 1, 10), (Except.error "boom", 20)] (atLeastOk 5) 600000
        (fun _ _ => ⟨[], .ok ()⟩) [] =
      ⟨[Ev.poll "L"], .error (.thrown "boom")⟩ :=
  (C9_poll_read_error_aborts).2.1 "L" [(Except.ok 1, 10), (Except.error "boom", 20)]
    (atLeastOk 5) 600000 (fun _ _ => ⟨[], .ok ()⟩) [] "boom" (by decide)

/-- Helper for C2: under passing earlier validations, a case-insensitive
destination/signer mismatch makes flow 1's validation fail with the
dedicated error. -/
theorem validate1_mismatch (inp : Input1) (w : World1) (tok dest a1 a2 a3 u pk : String)
    (htok : inp.token = some tok) (htok2 : tok ≠ "")
    (hto : inp.toArg = some dest) (hto2 : dest ≠ "") (haddr : w.isAddress dest = true)
    (ha1 : (inp.spotSendAmountArg <|> inp.amount) = some a1) (ha1e : a1 ≠ "")
    (ha2 : (inp.bridgeAmountArg <|> inp.amount) = some a2) (ha2e : a2 ≠ "")
    (ha3 : (inp.unwrapAmountArg <|> inp.amount) = some a3) (ha3e : a3 ≠ "")
    (hu : inp.srcRpcUrl = some u) (hue : u ≠ "")
    (hpk : inp.privateKey = some pk) (hpke : pk ≠ "")
    (hmeta : ∃ meta, requireToken (some tok) = .ok meta)
    (hne : jsToLower dest ≠ jsToLower w.signerAddress) :
    validate1 inp w = .error (mismatchMsg1 dest w.signerAddress) := by
  obtain ⟨meta, hmeta⟩ := hmeta
  simp [validate1, htok, htok2, hto, hto2, haddr, ha1, ha1e, ha2, ha2e, ha3, ha3e,
    hu, hue, hpk, hpke, hmeta, hne]

/-- Helper for C2: the same for flow 2. -/
theorem validate2_mismatch (inp : Input2) (w : World2) (tok dest a1 a2 a3 u pk : String)
    (htok : inp.token = some tok) (htok2 : tok ≠ "")
    (hto : inp.toArg = some dest) (hto2 : dest ≠ "") (haddr : w.isAddress dest = true)
    (ha1 : (inp.wrapAmountArg <|> inp.amount) = some a1) (ha1e : a1 ≠ "")
    (ha2 : (inp.sendAmountArg <|> inp.amount) = some a2) (ha2e : a2 ≠ "")
    (ha3 : (inp.coreAmountArg <|> inp.amount) = some a3) (ha3e : a3 ≠ "")
    (hu : inp.srcRpcUrl = some u) (hue : u ≠ "")
    (hpk : inp.privateKey = some pk) (hpke : pk ≠ "")
    (hmeta : ∃ meta, requireToken (some tok) = .ok meta)
    (hne : jsToLower dest ≠ jsToLower w.signerAddress) :
    validate2 inp w = .error (mismatchMsg2 dest w.signerAddress) := by
  obtain ⟨meta, hmeta⟩ := hmeta
  simp [validate2, htok, htok2, hto, hto2, haddr, ha1, ha1e, ha2, ha2e, ha3, ha3e,
    hu, hue, hpk, hpke, hmeta, hne]

/-- C2: in both flows, whenever the `--to` address differs case-insensitively
from the address derived from the signing key (and the run passes the
earlier input checks), the run is rejected with the dedicated descriptive
error, with an empty event trace: no network call has been made and no
step executor has run. -/
theorem C2_validation_rejects_mismatched_destination :
    (∀ (inp : Input1) (w : World1) (tok dest a1 a2 a3 u pk : String),
      inp.token = some tok → tok ≠ "" →
      inp.toArg = some dest → dest ≠ "" → w.isAddress dest = true →
      (inp.spotSendAmountArg <|> inp.amount) = some a1 → a1 ≠ "" →
      (inp.bridgeAmountArg <|> inp.amount) = some a2 → a2 ≠ "" →
      (inp.unwrapAmountArg <|> inp.amount) = some a3 → a3 ≠ "" →
      inp.srcRpcUrl = some u → u ≠ "" →
      inp.privateKey = some pk → pk ≠ "" →
      (∃ meta, requireToken (some tok) = .ok meta) →
      jsToLower dest ≠ jsToLower w.signerAddress →
      mainFlow1 inp w =
        ⟨[], .error (.thrown (mismatchMsg1 dest w.signerAddress))⟩) ∧
    (∀ (inp : Input2) (w : World2) (tok dest a1 a2 a3 u pk : String),
      inp.token = some tok → tok ≠ "" →
      inp.toArg = some dest → dest ≠ "" → w.isAddress dest = true →
      (inp.wrapAmountArg <|> inp.amount) = some a1 → a1 ≠ "" →
      (inp.sendAmountArg <|> inp.amount) = some a2 → a2 ≠ "" →
      (inp.coreAmountArg <|> inp.amount) = some a3 → a3 ≠ "" →
      inp.srcRpcUrl = some u → u ≠ "" →
      inp.privateKey = some pk → pk ≠ "" →
      (∃ meta, requireToken (some tok) = .ok meta) →
      jsToLower dest ≠ jsToLower w.signerAddress →
      mainFlow2 inp w =
        ⟨[], .error (.thrown (mismatchMsg2 dest w.signerAddress))⟩) := by
  constructor
  · intro inp w tok dest a1 a2 a3 u pk htok htok2 hto hto2 haddr ha1 ha1e ha2 ha2e
      ha3 ha3e hu hue hpk hpke hmeta hne
    have hv := validate1_mismatch inp w tok dest a1 a2 a3 u pk htok htok2 hto hto2
      haddr ha1 ha1e ha2 ha2e ha3 ha3e hu hue hpk hpke hmeta hne
    simp [mainFlow1, hv]
  · intro inp w tok dest a1 a2 a3 u pk htok htok2 hto hto2 haddr ha1 ha1e ha2 ha2e
      ha3 ha3e hu hue hpk hpke hmeta hne
    have hv := validate2_mismatch inp w tok dest a1 a2 a3 u pk htok htok2 hto hto2
      haddr ha1 ha1e ha2 ha2e ha3 ha3e hu hue hpk hpke hmeta hne
    simp [mainFlow2, hv]

/-- Witness for C2 in both flows: `--to 0xCD` against signer `0xAB`. -/
theorem C2_witness :
    mainFlow1 { sampleInput1 with toArg := some "0xCD" } sampleWorld1 =
      ⟨[], .error (.thrown (mismatchMsg1 "0xCD" "0xAB"))⟩ ∧
    mainFlow2 { sampleInput2 with toArg := some "0xCD" } sampleWorld2 =
      ⟨[], .error (.thrown (mismatchMsg2 "0xCD" "0xAB"))⟩ :=
  ⟨(C2_validation_rejects_mismatched_destination).1
      { sampleInput1 with toArg := some "0xCD" } sampleWorld1
      "crcld" "0xCD" "1" "1" "1" "http://rpc" "0xkey"
      rfl (by decide) rfl (by decide) rfl rfl (by decide) rfl (by decide)
      rfl (by decide) rfl (by decide) rfl (by decide)
      ⟨crcldConfig, by decide⟩ (by decide),
   (C2_validation_rejects_mismatched_destination).2
      { sampleInput2 with toArg := some "0xCD" } sampleWorld2
      "crcld" "0xCD" "1" "1" "1" "http://rpc" "0xkey"
      rfl (by decide) rfl (by decide) rfl rfl (by decide) rfl (by decide)
      rfl (by decide) rfl (by decide) rfl (by decide)
      ⟨crcldConfig, by decide⟩ (by decide)⟩

/-- Helper for C1: flow 1, executor failure at hop 1 stops hops 2 and 3. -/
theorem flow1_step1_fails_stops (inp : Input1) (w : World1) (ctx : Ctx1)
    (dec : Nat) (s0 : Option String) (b0 : Nat) (e : String)
    (hv : validate1 inp w = .ok ctx)
    (hdec : w.decimalsRes = .ok dec)
    (hfetch : fetchHyperCoreSpotTotal w.coreResp ctx.tokenMeta.hyperCore.tokenIndex = .ok s0)
    (hbal : w.hyperEvmBalBefore = .ok b0)
    (hstep : runStepResult "hypeCoreToHypeEvm" w.step1 = .error e) :
    hasStep "hypeEvmToBsc" (mainFlow1 inp w).trace = false ∧
    hasStep "bscUnwrap" (mainFlow1 inp w).trace = false := by
  simp [mainFlow1, hv, readK, hdec, hfetch, hbal, stepK, hstep, hasStep]

/-- Helper for C1: flow 1, hop 1's confirmation poll not satisfied (timeout
or read failure) stops hops 2 and 3. -/
theorem flow1_poll1_fails_stops (inp : Input1) (w : World1) (ctx : Ctx1)
    (dec : Nat) (s0 : Option String) (b0 : Nat)
    (hv : validate1 inp w = .ok ctx)
    (hdry : inp.dryRun = false)
    (hdec : w.decimalsRes = .ok dec)
    (hfetch : fetchHyperCoreSpotTotal w.coreResp ctx.tokenMeta.hyperCore.tokenIndex = .ok s0)
    (hbal : w.hyperEvmBalBefore = .ok b0)
    (hstep : runStepResult "hypeCoreToHypeEvm" w.step1 = .ok ())
    (hpoll : ∀ v, pollGo label1a
        (atLeastOk (b0 + w.parseUnits ctx.spotSendAmount dec)) 300000
        w.poll1Script ≠ .satisfied v) :
    hasStep "hypeEvmToBsc" (mainFlow1 inp w).trace = false ∧
    hasStep "bscUnwrap" (mainFlow1 inp w).trace = false := by
  cases hp : pollGo label1a (atLeastOk (b0 + w.parseUnits ctx.spotSendAmount dec))
      300000 w.poll1Script with
  | satisfied v => exact absurd hp (hpoll v)
  | timedOut m =>
    simp [mainFlow1, hv, readK, hdec, hfetch, hbal, stepK, hstep, condPoll, hdry,
      pollK, hp, hasStep]
  | readError m =>
    simp [mainFlow1, hv, readK, hdec, hfetch, hbal, stepK, hstep, condPoll, hdry,
      pollK, hp, hasStep]
  | scriptEnd =>
    simp [mainFlow1, hv, readK, hdec, hfetch, hbal, stepK, hstep, condPoll, hdry,
      pollK, hp, hasStep]

/-- Helper for C1: flow 1, executor failure at hop 2 stops hop 3. -/
theorem flow1_step2_fails_stops (inp : Input1) (w : World1) (ctx : Ctx1)
    (dec : Nat) (s0 : Option String) (b0 v1 b1 : Nat) (e : String)
    (hv : validate1 inp w = .ok ctx)
    (hdry : inp.dryRun = false)
    (hdec : w.decimalsRes = .ok dec)
    (hfetch : fetchHyperCoreSpotTotal w.coreResp ctx.tokenMeta.hyperCore.tokenIndex = .ok s0)
    (hbal : w.hyperEvmBalBefore = .ok b0)
    (hstep : runStepResult "hypeCoreToHypeEvm" w.step1 = .ok ())
    (hpoll : pollGo label1a (atLeastOk (b0 + w.parseUnits ctx.spotSendAmount dec))
        300000 w.poll1Script = .satisfied v1)
    (hb1 : w.bscWrapperBalBefore = .ok b1)
    (hstep2 : runStepResult "hypeEvmToBsc" w.step2 = .error e) :
    hasStep "bscUnwrap" (mainFlow1 inp w).trace = false := by
  simp [mainFlow1, hv, readK, hdec, hfetch, hbal, stepK, hstep, condPoll, hdry,
    pollK, hpoll, hb1, hstep2, hasStep]

/-- Helper for C1: flow 1, hop 2's confirmation poll not satisfied stops
hop 3. -/
theorem flow1_poll2_fails_stops (inp : Input1) (w : World1) (ctx : Ctx1)
    (dec : Nat) (s0 : Option String) (b0 v1 b1 : Nat)
    (hv : validate1 inp w = .ok ctx)
    (hdry : inp.dryRun = false)
    (hdec : w.decimalsRes = .ok dec)
    (hfetch : fetchHyperCoreSpotTotal w.coreResp ctx.tokenMeta.hyperCore.tokenIndex = .ok s0)
    (hbal : w.hyperEvmBalBefore = .ok b0)
    (hstep : runStepResult "hypeCoreToHypeEvm" w.step1 = .ok ())
    (hpoll : pollGo label1a (atLeastOk (b0 + w.parseUnits ctx.spotSendAmount dec))
        300000 w.poll1Script = .satisfied v1)
    (hb1 : w.bscWrapperBalBefore = .ok b1)
    (hstep2 : runStepResult "hypeEvmToBsc" w.step2 = .ok ())
    (hpoll2 : ∀ v, pollGo label1b
        (atLeastOk (b1 + w.parseUnits ctx.bridgeAmount dec)) 1800000
        w.poll2Script ≠ .satisfied v) :
    hasStep "bscUnwrap" (mainFlow1 inp w).trace = false := by
  cases hp : pollGo label1b (atLeastOk (b1 + w.parseUnits ctx.bridgeAmount dec))
      1800000 w.poll2Script with
  | satisfied v => exact absurd hp (hpoll2 v)
  | timedOut m =>
    simp [mainFlow1, hv, readK, hdec, hfetch, hbal, stepK, hstep, condPoll, hdry,
      pollK, hpoll, hb1, hstep2, hp, hasStep]
  | readError m =>
    simp [mainFlow1, hv, readK, hdec, hfetch, hbal, stepK, hstep, condPoll, hdry,
      pollK, hpoll, hb1, hstep2, hp, hasStep]
  | scriptEnd =>
    simp [mainFlow1, hv, readK, hdec, hfetch, hbal, stepK, hstep, condPoll, hdry,
      pollK, hpoll, hb1, hstep2, hp, hasStep]

/-- Helper for C1: flow 2, executor failure at hop 1 stops hops 2 and 3. -/
theorem flow2_step1_fails_stops (inp : Input2) (w : World2) (ctx : Ctx2)
    (b0 : Nat) (e : String)
    (hv : validate2 inp w = .ok ctx)
    (hbal : w.wrapperBalBefore = .ok b0)
    (hstep : runStepResult "bscWrap" w.step1 = .error e) :
    hasStep "bscToHypeEvm" (mainFlow2 inp w).trace = false ∧
    hasStep "hypeEvmToHypeCore" (mainFlow2 inp w).trace = false := by
  simp [mainFlow2, hv, readK, hbal, stepK, hstep, hasStep]

/-- Helper for C1: flow 2, hop 1's confirmation poll not satisfied stops
hops 2 and 3. -/
theorem flow2_poll1_fails_stops (inp : Input2) (w : World2) (ctx : Ctx2)
    (b0 : Nat)
    (hv : validate2 inp w = .ok ctx)
    (hdry : inp.dryRun = false)
    (hbal : w.wrapperBalBefore = .ok b0)
    (hstep : runStepResult "bscWrap" w.step1 = .ok ())
    (hpoll : ∀ v, pollGo label2a (anyIncreaseOk b0) 120000 w.poll1Script ≠
        .satisfied v) :
    hasStep "bscToHypeEvm" (mainFlow2 inp w).trace = false ∧
    hasStep "hypeEvmToHypeCore" (mainFlow2 inp w).trace = false := by
  cases hp : pollGo label2a (anyIncreaseOk b0) 120000 w.poll1Script with
  | satisfied v => exact absurd hp (hpoll v)
  | timedOut m =>
    simp [mainFlow2, hv, readK, hbal, stepK, hstep, condPoll, hdry, pollK, hp, hasStep]
  | readError m =>
    simp [mainFlow2, hv, readK, hbal, stepK, hstep, condPoll, hdry, pollK, hp, hasStep]
  | scriptEnd =>
    simp [mainFlow2, hv, readK, hbal, stepK, hstep, condPoll, hdry, pollK, hp, hasStep]

/-- Helper for C1: flow 2, executor failure at hop 2 stops hop 3. -/
theorem flow2_step2_fails_stops (inp : Input2) (w : World2) (ctx : Ctx2)
    (b0 v1 dec b1 : Nat) (e : String)
    (hv : validate2 inp w = .ok ctx)
    (hdry : inp.dryRun = false)
    (hbal : w.wrapperBalBefore = .ok b0)
    (hstep : runStepResult "bscWrap" w.step1 = .ok ())
    (hpoll : pollGo label2a (anyIncreaseOk b0) 120000 w.poll1Script = .satisfied v1)
    (hdec : w.decimalsRes = .ok dec)
    (hb1 : w.hyperBalBefore = .ok b1)
    (hstep2 : runStepResult "bscToHypeEvm" w.step2 = .error e) :
    hasStep "hypeEvmToHypeCore" (mainFlow2 inp w).trace = false := by
  simp [mainFlow2, hv, readK, hbal, stepK, hstep, condPoll, hdry, pollK, hpoll,
    hdec, hb1, hstep2, hasStep]

/-- Helper for C1: flow 2, hop 2's confirmation poll not satisfied stops
hop 3. -/
theorem flow2_poll2_fails_stops (inp : Input2) (w : World2) (ctx : Ctx2)
    (b0 v1 dec b1 : Nat)
    (hv : validate2 inp w = .ok ctx)
    (hdry : inp.dryRun = false)
    (hbal : w.wrapperBalBefore = .ok b0)
    (hstep : runStepResult "bscWrap" w.step1 = .ok ())
    (hpoll : pollGo label2a (anyIncreaseOk b0) 120000 w.poll1Script = .satisfied v1)
    (hdec : w.decimalsRes = .ok dec)
    (hb1 : w.hyperBalBefore = .ok b1)
    (hstep2 : runStepResult "bscToHypeEvm" w.step2 = .ok ())
    (hpoll2 : ∀ v, pollGo label2b
        (atLeastOk (b1 + w.parseUnits ctx.sendAmount dec)) 86400000
        w.poll2Script ≠ .satisfied v) :
    hasStep "hypeEvmToHypeCore" (mainFlow2 inp w).trace = false := by
  cases hp : pollGo label2b (atLeastOk (b1 + w.parseUnits ctx.sendAmount dec))
      86400000 w.poll2Script with
  | satisfied v => exact absurd hp (hpoll2 v)
  | timedOut m =>
    simp [mainFlow2, hv, readK, hbal, stepK, hstep, condPoll, hdry, pollK, hpoll,
      hdec, hb1, hstep2, hp, hasStep]
  | readError m =>
    simp [mainFlow2, hv, readK, hbal, stepK, hstep, condPoll, hdry, pollK, hpoll,
      hdec, hb1, hstep2, hp, hasStep]
  | scriptEnd =>
    simp [mainFlow2, hv, readK, hbal, stepK, hstep, condPoll, hdry, pollK, hpoll,
      hdec, hb1, hstep2, hp, hasStep]

/-- C1: in both flows, if hop i terminates in failure — its step executor's
subprocess exits non-zero, is killed by a signal or fails to spawn (all the
`runStepResult = .error` cases), or its confirmation poll fails to reach a
satisfying read — then the step executors of the later hops are never
invoked: no later step event occurs in the run's trace. -/
theorem C1_hop_failure_stops_later_hops :
    (∀ (inp : Input1) (w : World1) (ctx : Ctx1) (dec : Nat) (s0 : Option String)
        (b0 : Nat) (e : String),
      validate1 inp w = .ok ctx →
      w.decimalsRes = .ok dec →
      fetchHyperCoreSpotTotal w.coreResp ctx.tokenMeta.hyperCore.tokenIndex = .ok s0 →
      w.hyperEvmBalBefore = .ok b0 →
      runStepResult "hypeCoreToHypeEvm" w.step1 = .error e →
      hasStep "hypeEvmToBsc" (mainFlow1 inp w).trace = false ∧
      hasStep "bscUnwrap" (mainFlow1 inp w).trace = false) ∧
    (∀ (inp : Input1) (w : World1) (ctx : Ctx1) (dec : Nat) (s0 : Option String)
        (b0 : Nat),
      validate1 inp w = .ok ctx →
      inp.dryRun = false →
      w.decimalsRes = .ok dec →
      fetchHyperCoreSpotTotal w.coreResp ctx.tokenMeta.hyperCore.tokenIndex = .ok s0 →
      w.hyperEvmBalBefore = .ok b0 →
      runStepResult "hypeCoreToHypeEvm" w.step1 = .ok () →
      (∀ v, pollGo label1a (atLeastOk (b0 + w.parseUnits ctx.spotSendAmount dec))
        300000 w.poll1Script ≠ .satisfied v) →
      hasStep "hypeEvmToBsc" (mainFlow1 inp w).trace = false ∧
      hasStep "bscUnwrap" (mainFlow1 inp w).trace = false) ∧
    (∀ (inp : Input1) (w : World1) (ctx : Ctx1) (dec : Nat) (s0 : Option String)
        (b0 v1 b1 : Nat) (e : String),
      validate1 inp w = .ok ctx →
      inp.dryRun = false →
      w.decimalsRes = .ok dec →
      fetchHyperCoreSpotTotal w.coreResp ctx.tokenMeta.hyperCore.tokenIndex = .ok s0 →
      w.hyperEvmBalBefore = .ok b0 →
      runStepResult "hypeCoreToHypeEvm" w.step1 = .ok () →
      pollGo label1a (atLeastOk (b0 + w.parseUnits ctx.spotSendAmount dec))
        300000 w.poll1Script = .satisfied v1 →
      w.bscWrapperBalBefore = .ok b1 →
      runStepResult "hypeEvmToBsc" w.step2 = .error e →
      hasStep "bscUnwrap" (mainFlow1 inp w).trace = false) ∧
    (∀ (inp : Input1) (w : World1) (ctx : Ctx1) (dec : Nat) (s0 : Option String)
        (b0 v1 b1 : Nat),
      validate1 inp w = .ok ctx →
      inp.dryRun = false →
      w.decimalsRes = .ok dec →
      fetchHyperCoreSpotTotal w.coreResp ctx.tokenMeta.hyperCore.tokenIndex = .ok s0 →
      w.hyperEvmBalBefore = .ok b0 →
      runStepResult "hypeCoreToHypeEvm" w.step1 = .ok () →
      pollGo label1a (atLeastOk (b0 + w.parseUnits ctx.spotSendAmount dec))
        300000 w.poll1Script = .satisfied v1 →
      w.bscWrapperBalBefore = .ok b1 →
      runStepResult "hypeEvmToBsc" w.step2 = .ok () →
      (∀ v, pollGo label1b (atLeastOk (b1 + w.parseUnits ctx.bridgeAmount dec))
        1800000 w.poll2Script ≠ .satisfied v) →
      hasStep "bscUnwrap" (mainFlow1 inp w).trace = false) ∧
    (∀ (inp : Input2) (w : World2) (ctx : Ctx2) (b0 : Nat) (e : String),
      validate2 inp w = .ok ctx →
      w.wrapperBalBefore = .ok b0 →
      runStepResult "bscWrap" w.step1 = .error e →
      hasStep "bscToHypeEvm" (mainFlow2 inp w).trace = false ∧
      hasStep "hypeEvmToHypeCore" (mainFlow2 inp w).trace = false) ∧
    (∀ (inp : Input2) (w : World2) (ctx : Ctx2) (b0 : Nat),
      validate2 inp w = .ok ctx →
      inp.dryRun = false →
      w.wrapperBalBefore = .ok b0 →
      runStepResult "bscWrap" w.step1 = .ok () →
      (∀ v, pollGo label2a (anyIncreaseOk b0) 120000 w.poll1Script ≠ .satisfied v) →
      hasStep "bscToHypeEvm" (mainFlow2 inp w).trace = false ∧
      hasStep "hypeEvmToHypeCore" (mainFlow2 inp w).trace = false) ∧
    (∀ (inp : Input2) (w : World2) (ctx : Ctx2) (b0 v1 dec b1 : Nat) (e : String),
      validate2 inp w = .ok ctx →
      inp.dryRun = false →
      w.wrapperBalBefore = .ok b0 →
      runStepResult "bscWrap" w.step1 = .ok () →
      pollGo label2a (anyIncreaseOk b0) 120000 w.poll1Script = .satisfied v1 →
      w.decimalsRes = .ok dec →
      w.hyperBalBefore = .ok b1 →
      runStepResult "bscToHypeEvm" w.step2 = .error e →
      hasStep "hypeEvmToHypeCore" (mainFlow2 inp w).trace = false) ∧
    (∀ (inp : Input2) (w : World2) (ctx : Ctx2) (b0 v1 dec b1 : Nat),
      validate2 inp w = .ok ctx →
      inp.dryRun = false →
      w.wrapperBalBefore = .ok b0 →
      runStepResult "bscWrap" w.step1 = .ok () →
      pollGo label2a (anyIncreaseOk b0) 120000 w.poll1Script = .satisfied v1 →
      w.decimalsRes = .ok dec →
      w.hyperBalBefore = .ok b1 →
      runStepResult "bscToHypeEvm" w.step2 = .ok () →
      (∀ v, pollGo label2b (atLeastOk (b1 + w.parseUnits ctx.sendAmount dec))
        86400000 w.poll2Script ≠ .satisfied v) →
      hasStep "hypeEvmToHypeCore" (mainFlow2 inp w).trace = false) :=
  ⟨flow1_step1_fails_stops, flow1_poll1_fails_stops, flow1_step2_fails_stops,
   flow1_poll2_fails_stops, flow2_step1_fails_stops, flow2_poll1_fails_stops,
   flow2_step2_fails_stops, flow2_poll2_fails_stops⟩

/-- Witness for C1: a concrete flow-1 run whose first step exits with code 1
invokes neither later step, and a concrete flow-2 run whose first
confirmation poll times out invokes neither later step. -/
theorem C1_witness :
    (hasStep "hypeEvmToBsc"
        (mainFlow1 sampleInput1 { sampleWorld1 with step1 := .exited 1 }).trace = false ∧
     hasStep "bscUnwrap"
        (mainFlow1 sampleInput1 { sampleWorld1 with step1 := .exited 1 }).trace = false) ∧
    (hasStep "bscToHypeEvm"
        (mainFlow2 sampleInput2
          { sampleWorld2 with poll1Script := [(.ok 0, 130000)] }).trace = false ∧
     hasStep "hypeEvmToHypeCore"
        (mainFlow2 sampleInput2
          { sampleWorld2 with poll1Script := [(.ok 0, 130000)] }).trace = false) := by
  constructor
  · exact C1_hop_failure_stops_later_hops.1 sampleInput1
      { sampleWorld1 with step1 := .exited 1 }
      ⟨"crcld", "0xAB", "1", "1", "1", crcldConfig⟩ 6 none 0
      "hypeCoreToHypeEvm failed with exit code 1"
      (by decide) (by decide) (by decide) (by decide) (by decide)
  · refine C1_hop_failure_stops_later_hops.2.2.2.2.2.1 sampleInput2
      { sampleWorld2 with poll1Script := [(.ok 0, 130000)] }
      ⟨"crcld", "0xAB", "1", "1", "1", crcldConfig⟩ 0
      (by decide) (by decide) (by decide) (by decide) ?_
    intro v h
    rw [show pollGo label2a (anyIncreaseOk 0) 120000 [(Except.ok 0, 130000)] =
        PollOutcome.timedOut ("Timeout waiting for: " ++ label2a) from by decide] at h
    simp at h

/-- Flow 1's validation never reads the dry-run flag. -/
theorem validate1_dryRun_irrel (inp : Input1) (w : World1) (b : Bool) :
    validate1 { inp with dryRun := b } w = validate1 inp w := rfl

/-- Flow 2's validation never reads the dry-run flag. -/
theorem validate2_dryRun_irrel (inp : Input2) (w : World2) (b : Bool) :
    validate2 { inp with dryRun := b } w = validate2 inp w := rfl

/-- Helper for C6: every dry-run of flow 1, whatever the world does, never
invokes the poller, and every step executor it spawns is passed
`--dry-run`. -/
theorem mainFlow1_dry (inp : Input1) (w : World1) (hd : inp.dryRun = true) :
    noPollEvents (mainFlow1 inp w).trace = true ∧
    stepsAllDry (mainFlow1 inp w).trace = true := by
  cases hv : validate1 inp w with
  | error e => simp [mainFlow1, hv, noPollEvents, stepsAllDry]
  | ok ctx =>
    cases h1 : w.decimalsRes with
    | error e => simp [mainFlow1, hv, h1, readK, noPollEvents, stepsAllDry, isPollEv]
    | ok dec =>
    cases h2 : fetchHyperCoreSpotTotal w.coreResp ctx.tokenMeta.hyperCore.tokenIndex with
    | error e => simp [mainFlow1, hv, h1, h2, readK, noPollEvents, stepsAllDry, isPollEv]
    | ok s0 =>
    cases h3 : w.hyperEvmBalBefore with
    | error e => simp [mainFlow1, hv, h1, h2, h3, readK, noPollEvents, stepsAllDry, isPollEv]
    | ok b0 =>
    cases h4 : runStepResult "hypeCoreToHypeEvm" w.step1 with
    | error e =>
      simp [mainFlow1, hv, h1, h2, h3, h4, readK, stepK, hd, dryArgs, noPollEvents,
        stepsAllDry, isPollEv]
    | ok u =>
    cases h5 : w.bscWrapperBalBefore with
    | error e =>
      simp [mainFlow1, hv, h1, h2, h3, h4, h5, readK, stepK, condPoll, hd, dryArgs,
        noPollEvents, stepsAllDry, isPollEv]
    | ok b1 =>
    cases h6 : runStepResult "hypeEvmToBsc" w.step2 with
    | error e =>
      simp [mainFlow1, hv, h1, h2, h3, h4, h5, h6, readK, stepK, condPoll, hd, dryArgs,
        noPollEvents, stepsAllDry, isPollEv]
    | ok u2 =>
    cases h7 : ctx.tokenMeta.bsc.underlying with
    | none =>
      simp [mainFlow1, hv, h1, h2, h3, h4, h5, h6, h7, readK, stepK, condPoll, failK,
        hd, dryArgs, noPollEvents, stepsAllDry, isPollEv]
    | some underlying =>
    cases h8 : w.underlyingBalBefore with
    | error e =>
      simp [mainFlow1, hv, h1, h2, h3, h4, h5, h6, h7, h8, readK, stepK, condPoll, hd,
        dryArgs, noPollEvents, stepsAllDry, isPollEv]
    | ok b2 =>
    cases h9 : runStepResult "bscUnwrap" w.step3 with
    | error e =>
      simp [mainFlow1, hv, h1, h2, h3, h4, h5, h6, h7, h8, h9, readK, stepK, condPoll,
        hd, dryArgs, noPollEvents, stepsAllDry, isPollEv]
    | ok u3 =>
      simp [mainFlow1, hv, h1, h2, h3, h4, h5, h6, h7, h8, h9, readK, stepK, condPoll,
        doneK, hd, dryArgs, noPollEvents, stepsAllDry, isPollEv]

/-- Helper for C6: every dry-run of flow 2, whatever the world does, never
invokes the poller, and every step executor it spawns is passed
`--dry-run`. -/
theorem mainFlow2_dry (inp : Input2) (w : World2) (hd : inp.dryRun = true) :
    noPollEvents (mainFlow2 inp w).trace = true ∧
    stepsAllDry (mainFlow2 inp w).trace = true := by
  cases hv : validate2 inp w with
  | error e => simp [mainFlow2, hv, noPollEvents, stepsAllDry]
  | ok ctx =>
    cases h1 : w.wrapperBalBefore with
    | error e => simp [mainFlow2, hv, h1, readK, noPollEvents, stepsAllDry, isPollEv]
    | ok b0 =>
    cases h2 : runStepResult "bscWrap" w.step1 with
    | error e =>
      simp [mainFlow2, hv, h1, h2, readK, stepK, hd, dryArgs, noPollEvents,
        stepsAllDry, isPollEv]
    | ok u =>
    cases h3 : w.decimalsRes with
    | error e =>
      simp [mainFlow2, hv, h1, h2, h3, readK, stepK, condPoll, hd, dryArgs,
        noPollEvents, stepsAllDry, isPollEv]
    | ok dec =>
    cases h4 : w.hyperBalBefore with
    | error e =>
      simp [mainFlow2, hv, h1, h2, h3, h4, readK, stepK, condPoll, hd, dryArgs,
        noPollEvents, stepsAllDry, isPollEv]
    | ok b1 =>
    cases h5 : runStepResult "bscToHypeEvm" w.step2 with
    | error e =>
      simp [mainFlow2, hv, h1, h2, h3, h4, h5, readK, stepK, condPoll, hd, dryArgs,
        noPollEvents, stepsAllDry, isPollEv]
    | ok u2 =>
    cases h6 : fetchHyperCoreSpotTotal w.coreResp ctx.tokenMeta.hyperCore.tokenIndex with
    | error e =>
      simp [mainFlow2, hv, h1, h2, h3, h4, h5, h6, readK, stepK, condPoll, hd, dryArgs,
        noPollEvents, stepsAllDry, isPollEv]
    | ok s0 =>
    cases h7 : runStepResult "hypeEvmToHypeCore" w.step3 with
    | error e =>
      simp [mainFlow2, hv, h1, h2, h3, h4, h5, h6, h7, readK, stepK, condPoll, hd,
        dryArgs, noPollEvents, stepsAllDry, isPollEv]
    | ok u3 =>
      simp [mainFlow2, hv, h1, h2, h3, h4, h5, h6, h7, readK, stepK, condPoll, doneK,
        hd, dryArgs, noPollEvents, stepsAllDry, isPollEv]

/-- Helper for C6: on a flow-1 run that proceeds (reads succeed, executors
succeed, confirmations satisfied), the per-hop plans passed to the step
executors in dry-run mode equal those of the non-dry-run invocation with
the same inputs. -/
theorem mainFlow1_plans (inp : Input1) (w : World1) (ctx : Ctx1)
    (dec : Nat) (s0 : Option String) (b0 v1 b1 v2 b2 b3 : Nat) (u : String)
    (hv : validate1 inp w = .ok ctx)
    (hdry : inp.dryRun = false)
    (h1 : w.decimalsRes = .ok dec)
    (h2 : fetchHyperCoreSpotTotal w.coreResp ctx.tokenMeta.hyperCore.tokenIndex = .ok s0)
    (h3 : w.hyperEvmBalBefore = .ok b0)
    (h4 : runStepResult "hypeCoreToHypeEvm" w.step1 = .ok ())
    (hp1 : pollGo label1a (atLeastOk (b0 + w.parseUnits ctx.spotSendAmount dec))
      300000 w.poll1Script = .satisfied v1)
    (h5 : w.bscWrapperBalBefore = .ok b1)
    (h6 : runStepResult "hypeEvmToBsc" w.step2 = .ok ())
    (hp2 : pollGo label1b (atLeastOk (b1 + w.parseUnits ctx.bridgeAmount dec))
      1800000 w.poll2Script = .satisfied v2)
    (h7 : ctx.tokenMeta.bsc.underlying = some u)
    (h8 : w.underlyingBalBefore = .ok b2)
    (h9 : runStepResult "bscUnwrap" w.step3 = .ok ())
    (h10 : w.underlyingBalAfter = .ok b3) :
    stepPlans (mainFlow1 { inp with dryRun := true } w).trace =
      stepPlans (mainFlow1 inp w).trace := by
  simp [mainFlow1, validate1_dryRun_irrel, hv, hdry, h1, h2, h3, h4, hp1, h5, h6,
    hp2, h7, h8, h9, h10, readK, stepK, condPoll, pollK, doneK, dryArgs, stepPlans,
    List.filter_cons]

/-- Helper for C6: the flow-2 analogue of `mainFlow1_plans`. -/
theorem mainFlow2_plans (inp : Input2) (w : World2) (ctx : Ctx2)
    (b0 v1 dec b1 v2 v3 : Nat) (s0 : Option String)
    (hv : validate2 inp w = .ok ctx)
    (hdry : inp.dryRun = false)
    (h1 : w.wrapperBalBefore = .ok b0)
    (h2 : runStepResult "bscWrap" w.step1 = .ok ())
    (hp1 : pollGo label2a (anyIncreaseOk b0) 120000 w.poll1Script = .satisfied v1)
    (h3 : w.decimalsRes = .ok dec)
    (h4 : w.hyperBalBefore = .ok b1)
    (h5 : runStepResult "bscToHypeEvm" w.step2 = .ok ())
    (hp2 : pollGo label2b (atLeastOk (b1 + w.parseUnits ctx.sendAmount dec))
      86400000 w.poll2Script = .satisfied v2)
    (h6 : fetchHyperCoreSpotTotal w.coreResp ctx.tokenMeta.hyperCore.tokenIndex = .ok s0)
    (h7 : runStepResult "hypeEvmToHypeCore" w.step3 = .ok ())
    (hp3 : pollGo (label2c ctx.tokenMeta.hyperCore.tokenIndex)
      (hypeCoreCreditOk (coreBalOrZero (fun s => w.parseUnits s dec) s0)
        (w.parseUnits ctx.coreAmount dec)) 600000
      (poll3Reads w ctx.tokenMeta.hyperCore.tokenIndex dec) = .satisfied v3) :
    stepPlans (mainFlow2 { inp with dryRun := true } w).trace =
      stepPlans (mainFlow2 inp w).trace := by
  simp [mainFlow2, validate2_dryRun_irrel, hv, hdry, h1, h2, hp1, h3, h4, h5, hp2,
    h6, h7, hp3, readK, stepK, condPoll, pollK, doneK, dryArgs, stepPlans,
    List.filter_cons]

/-- C6: in both flows, a dry-run invocation never calls the poller for any
hop and forwards `--dry-run` to every step executor it invokes (the
orchestrator itself performs only balance/metadata reads, never a
state-changing submission), and on a run that proceeds, the per-hop plan
passed to each step executor — executor name, token, destination, resolved
per-hop amount — is identical to a non-dry-run invocation with the same
inputs and world. -/
theorem C6_dry_run_skips_polls_same_plan :
    (∀ (inp : Input1) (w : World1), inp.dryRun = true →
      noPollEvents (mainFlow1 inp w).trace = true ∧
      stepsAllDry (mainFlow1 inp w).trace = true) ∧
    (∀ (inp : Input2) (w : World2), inp.dryRun = true →
      noPollEvents (mainFlow2 inp w).trace = true ∧
      stepsAllDry (mainFlow2 inp w).trace = true) ∧
    (∀ (inp : Input1) (w : World1) (ctx : Ctx1) (dec : Nat) (s0 : Option String)
        (b0 v1 b1 v2 b2 b3 : Nat) (u : String),
      validate1 inp w = .ok ctx →
      inp.dryRun = false →
      w.decimalsRes = .ok dec →
      fetchHyperCoreSpotTotal w.coreResp ctx.tokenMeta.hyperCore.tokenIndex = .ok s0 →
      w.hyperEvmBalBefore = .ok b0 →
      runStepResult "hypeCoreToHypeEvm" w.step1 = .ok () →
      pollGo label1a (atLeastOk (b0 + w.parseUnits ctx.spotSendAmount dec))
        300000 w.poll1Script = .satisfied v1 →
      w.bscWrapperBalBefore = .ok b1 →
      runStepResult "hypeEvmToBsc" w.step2 = .ok () →
      pollGo label1b (atLeastOk (b1 + w.parseUnits ctx.bridgeAmount dec))
        1800000 w.poll2Script = .satisfied v2 →
      ctx.tokenMeta.bsc.underlying = some u →
      w.underlyingBalBefore = .ok b2 →
      runStepResult "bscUnwrap" w.step3 = .ok () →
      w.underlyingBalAfter = .ok b3 →
      stepPlans (mainFlow1 { inp with dryRun := true } w).trace =
        stepPlans (mainFlow1 inp w).trace) ∧
    (∀ (inp : Input2) (w : World2) (ctx : Ctx2) (b0 v1 dec b1 v2 v3 : Nat)
        (s0 : Option String),
      validate2 inp w = .ok ctx →
      inp.dryRun = false →
      w.wrapperBalBefore = .ok b0 →
      runStepResult "bscWrap" w.step1 = .ok () →
      pollGo label2a (anyIncreaseOk b0) 120000 w.poll1Script = .satisfied v1 →
      w.decimalsRes = .ok dec →
      w.hyperBalBefore = .ok b1 →
      runStepResult "bscToHypeEvm" w.step2 = .ok () →
      pollGo label2b (atLeastOk (b1 + w.parseUnits ctx.sendAmount dec))
        86400000 w.poll2Script = .satisfied v2 →
      fetchHyperCoreSpotTotal w.coreResp ctx.tokenMeta.hyperCore.tokenIndex = .ok s0 →
      runStepResult "hypeEvmToHypeCore" w.step3 = .ok () →
      pollGo (label2c ctx.tokenMeta.hyperCore.tokenIndex)
        (hypeCoreCreditOk (coreBalOrZero (fun s => w.parseUnits s dec) s0)
          (w.parseUnits ctx.coreAmount dec)) 600000
        (poll3Reads w ctx.tokenMeta.hyperCore.tokenIndex dec) = .satisfied v3 →
      stepPlans (mainFlow2 { inp with dryRun := true } w).trace =
        stepPlans (mainFlow2 inp w).trace) :=
  ⟨mainFlow1_dry, mainFlow2_dry, mainFlow1_plans, mainFlow2_plans⟩

/-- Witness for C6: the sample dry-run of flow 1 produces no poll events,
passes `--dry-run` to every executor, and its per-hop plans equal those of
the non-dry-run sample run; same-shaped check on flow 2's poll-free dry
trace. -/
theorem C6_witness :
    (noPollEvents (mainFlow1 { sampleInput1 with dryRun := true } sampleWorld1).trace = true ∧
     stepsAllDry (mainFlow1 { sampleInput1 with dryRun := true } sampleWorld1).trace = true) ∧
    (noPollEvents (mainFlow2 { sampleInput2 with dryRun := true } sampleWorld2).trace = true ∧
     stepsAllDry (mainFlow2 { sampleInput2 with dryRun := true } sampleWorld2).trace = true) ∧
    stepPlans (mainFlow1 { sampleInput1 with dryRun := true } sampleWorld1).trace =
      stepPlans (mainFlow1 sampleInput1 sampleWorld1).trace := by
  refine ⟨?_, ?_, ?_⟩
  · exact C6_dry_run_skips_polls_same_plan.1 { sampleInput1 with dryRun := true }
      sampleWorld1 rfl
  · exact C6_dry_run_skips_polls_same_plan.2.1 { sampleInput2 with dryRun := true }
      sampleWorld2 rfl
  · exact C6_dry_run_skips_polls_same_plan.2.2.1 sampleInput1 sampleWorld1
      ⟨"crcld", "0xAB", "1", "1", "1", crcldConfig⟩ 6 none 0 1000 0 1000 0 1000
      "0x992879cd8ce0c312d98648875b5a8d6d042cbf34"
      (by decide) rfl rfl (by decide) rfl (by decide) (by decide) rfl (by decide)
      (by decide) (by decide) rfl (by decide) rfl
